import Mathlib

/-!
Verification of the RevFlo Code Health Audit Engine.

This file gives a shallow embedding of the audit engine of the RevFlo
backend (directory `backend/app/services/audit/`) and proves properties of
it.  Each Lean definition is translated from the Python source named in
its doc comment.  Machine integers are modelled as `Int`/`Nat`; Python
numbers appearing in configuration documents (ints or floats) are
modelled as rationals.  Fallible operations return `Except`/`Option`.
Pure presentational data (log lines, timestamps, UUID identifiers) is
omitted where noted, since it never feeds back into any computation.
-/

namespace Revflo

/-- A Python scalar value as it may appear in a `.revflo.yml` configuration
document: a boolean, a number (int or float, modelled as a rational) or a
string.  (`config_parser.py` validates exactly these shapes.) -/
inductive Val where
  | vBool : Bool → Val
  | vNum : ℚ → Val
  | vStr : String → Val
deriving DecidableEq, Repr

/-- Python `isinstance(v, (int, float))`.  Note that Python `bool` is a
subclass of `int`, so booleans count as numbers here, exactly as in
`config_parser.py` line 148. -/
def Val.isNumber : Val → Bool
  | .vStr _ => false
  | _ => true

/-- The numeric value of a `Val`; Python `True`/`False` are the integers
`1`/`0`.  A string never reaches a numeric context in the validated code
paths (Python would raise `TypeError`); we return `0` there for totality. -/
def Val.numVal : Val → ℚ
  | .vBool b => if b then 1 else 0
  | .vNum q => q
  | .vStr _ => 0

/-- Python truthiness of a scalar, as used by `if self.config.is_rule_enabled(...)`. -/
def Val.truthy : Val → Bool
  | .vBool b => b
  | .vNum q => decide (q ≠ 0)
  | .vStr s => decide (s ≠ "")

/-- Python `isinstance(v, bool)`. -/
def Val.isBool : Val → Bool
  | .vBool _ => true
  | _ => false

/-- `RevFloConfig.VALID_SEVERITIES` from `config_parser.py`. -/
def VALID_SEVERITIES : List String := ["critical", "high", "medium", "low"]

/-- The valid `settings.pr_comments.severity_filter` values
(`config_parser.py` line 165). -/
def VALID_FILTERS : List String := ["all", "critical_high", "critical"]

/-- Python `severity not in VALID_SEVERITIES`, negated: a non-string value
is never equal to any of the four strings. -/
def Val.severityOk : Val → Bool
  | .vStr s => VALID_SEVERITIES.contains s
  | _ => false

/-- Python `severity_filter not in valid_filters`, negated. -/
def Val.filterOk : Val → Bool
  | .vStr s => VALID_FILTERS.contains s
  | _ => false

/-- One rule's merged configuration: the `{enabled, thresholds, severity}`
dictionary of `config_parser.py`.  The thresholds dictionary is modelled
as an association list with distinct keys. -/
structure RuleConf where
  enabled : Val
  thresholds : List (String × Val)
  severity : Val
deriving DecidableEq, Repr

/-- A user-supplied override for one rule: any of the three keys may be
absent.  (Extra keys in the user document are stored by `dict.update` but
never read by validation or the engine, so they are not modelled.) -/
structure RuleOverride where
  enabled : Option Val := none
  thresholds : Option (List (String × Val)) := none
  severity : Option Val := none
deriving DecidableEq, Repr

/-- Merged `settings.pr_comments`. -/
structure PrComments where
  enabled : Val
  severity_filter : Val
deriving DecidableEq, Repr

/-- User override for `settings.pr_comments`. -/
structure PrCommentsOverride where
  enabled : Option Val := none
  severity_filter : Option Val := none
deriving DecidableEq, Repr

/-- The five built-in rules of `DEFAULT_CONFIG` in `config_parser.py`.
The rule dictionary of a merged configuration always has exactly these
five keys, because `_merge_with_defaults` only updates existing keys. -/
structure Rules where
  hotspot : RuleConf
  deep_nesting : RuleConf
  large_file : RuleConf
  complex_module : RuleConf
  no_tests : RuleConf
deriving DecidableEq, Repr

/-- A merged configuration document (the `self.config` field of
`RevFloConfig`). -/
structure Config where
  rules : Rules
  settings : PrComments
deriving DecidableEq, Repr

/-- A raw user configuration document: a list of per-rule overrides keyed
by rule name (any names allowed) plus an optional `settings.pr_comments`
override. -/
structure UserConfig where
  rules : List (String × RuleOverride) := []
  pr_comments : Option PrCommentsOverride := none
deriving DecidableEq, Repr

/-- `DEFAULT_CONFIG` from `config_parser.py` lines 10-45. -/
def DEFAULT_CONFIG : Config :=
  { rules :=
      { hotspot :=
          { enabled := .vBool true
            thresholds := [("complexity", .vNum 25), ("churn", .vNum 10)]
            severity := .vStr "critical" }
        deep_nesting :=
          { enabled := .vBool true
            thresholds := [("indent_depth", .vNum 6)]
            severity := .vStr "high" }
        large_file :=
          { enabled := .vBool true
            thresholds := [("loc", .vNum 300)]
            severity := .vStr "medium" }
        complex_module :=
          { enabled := .vBool true
            thresholds := [("complexity", .vNum 35)]
            severity := .vStr "high" }
        no_tests :=
          { enabled := .vBool true
            thresholds := [("min_loc", .vNum 100)]
            severity := .vStr "medium" } }
    settings :=
      { enabled := .vBool true
        severity_filter := .vStr "critical_high" } }

/-- Merge one user override into one rule's current configuration.
`config["rules"][name].update(rule_config)` replaces each of the three
keys that the override provides; note that it replaces the nested
`thresholds` dictionary wholesale, and that the subsequent
`config["rules"][name]["thresholds"].update(rule_config["thresholds"])`
on line 113 then updates that same dictionary object with itself (a
no-op), so an override's thresholds replace the defaults entirely. -/
def mergeRule (d : RuleConf) (o : RuleOverride) : RuleConf :=
  { enabled := o.enabled.getD d.enabled
    thresholds := o.thresholds.getD d.thresholds
    severity := o.severity.getD d.severity }

/-- The built-in rule names, i.e. the keys of `DEFAULT_CONFIG["rules"]`. -/
def knownRuleNames : List String :=
  ["hotspot", "deep_nesting", "large_file", "complex_module", "no_tests"]

/-- Apply one `(rule_name, override)` entry of the user document:
`if rule_name in config["rules"]` the rule is merged, otherwise the entry
is silently discarded (`config_parser.py` line 107). -/
def applyRuleOverride (r : Rules) (name : String) (o : RuleOverride) : Rules :=
  if name = "hotspot" then { r with hotspot := mergeRule r.hotspot o }
  else if name = "deep_nesting" then { r with deep_nesting := mergeRule r.deep_nesting o }
  else if name = "large_file" then { r with large_file := mergeRule r.large_file o }
  else if name = "complex_module" then { r with complex_module := mergeRule r.complex_module o }
  else if name = "no_tests" then { r with no_tests := mergeRule r.no_tests o }
  else r

/-- `RevFloConfig._merge_with_defaults` (`config_parser.py` lines 97-124):
start from a deep copy of `DEFAULT_CONFIG`, apply each user rule entry in
document order, then merge the `pr_comments` settings key-wise. -/
def mergeWithDefaults (u : UserConfig) : Config :=
  { rules := u.rules.foldl (fun acc p => applyRuleOverride acc p.1 p.2) DEFAULT_CONFIG.rules
    settings :=
      match u.pr_comments with
      | none => DEFAULT_CONFIG.settings
      | some o =>
          { enabled := o.enabled.getD DEFAULT_CONFIG.settings.enabled
            severity_filter := o.severity_filter.getD DEFAULT_CONFIG.settings.severity_filter } }

/-- The merged rules dictionary in its Python insertion order, as iterated
by `for rule_name, rule_config in self.config["rules"].items()`. -/
def Rules.toList (r : Rules) : List (String × RuleConf) :=
  [("hotspot", r.hotspot), ("deep_nesting", r.deep_nesting), ("large_file", r.large_file),
    ("complex_module", r.complex_module), ("no_tests", r.no_tests)]

/-- The per-threshold checks of `RevFloConfig._validate` (lines 146-157):
each threshold value must satisfy `isinstance(v, (int, float))` and must
not be `< 0`; the first offending entry raises. -/
def validateThresholds (rule : String) : List (String × Val) → Except String Unit
  | [] => .ok ()
  | (tname, tval) :: rest =>
    if tval.isNumber = false then
      .error ("Invalid threshold " ++ tname ++ " for rule " ++ rule ++ ". Must be a number.")
    else if tval.numVal < 0 then
      .error ("Invalid threshold " ++ tname ++ " for rule " ++ rule ++ ". Must be positive.")
    else validateThresholds rule rest

/-- The per-rule loop of `RevFloConfig._validate` (lines 129-157):
severity, then enabled, then all thresholds of the rule. -/
def validateRules : List (String × RuleConf) → Except String Unit
  | [] => .ok ()
  | (name, rc) :: rest =>
    if rc.severity.severityOk = false then
      .error ("Invalid severity for rule " ++ name)
    else if rc.enabled.isBool = false then
      .error ("Invalid enabled value for rule " ++ name)
    else
      match validateThresholds name rc.thresholds with
      | .error e => .error e
      | .ok () => validateRules rest

/-- `RevFloConfig._validate` (`config_parser.py` lines 126-170): all five
rules, then the `pr_comments` settings. -/
def validateConfig (c : Config) : Except String Unit :=
  match validateRules c.rules.toList with
  | .error e => .error e
  | .ok () =>
    if c.settings.enabled.isBool = false then
      .error "settings.pr_comments.enabled must be true or false"
    else if c.settings.severity_filter.filterOk = false then
      .error "Invalid severity_filter"
    else .ok ()

/-- `RevFloConfig.__init__` (`config_parser.py` lines 56-60): merge with
defaults, then validate; a `ValueError` is modelled as `Except.error`.
An error means no configuration object is ever constructed, so an invalid
document is never partially applied. -/
def RevFloConfig.init (u : UserConfig) : Except String Config :=
  let c := mergeWithDefaults u
  match validateConfig c with
  | .error e => .error e
  | .ok () => .ok c

/-- Accessor: the merged rule dictionary lookup
(`self.config["rules"].get(rule_name, {})` specialised to the five fixed
keys; any other name yields the empty dictionary, here `none`). -/
def Config.ruleConf (c : Config) (name : String) : Option RuleConf :=
  if name = "hotspot" then some c.rules.hotspot
  else if name = "deep_nesting" then some c.rules.deep_nesting
  else if name = "large_file" then some c.rules.large_file
  else if name = "complex_module" then some c.rules.complex_module
  else if name = "no_tests" then some c.rules.no_tests
  else none

/-- `RevFloConfig.is_rule_enabled`: truthiness of `.get("enabled", False)`. -/
def Config.is_rule_enabled (c : Config) (name : String) : Bool :=
  match c.ruleConf name with
  | some rc => rc.enabled.truthy
  | none => false

/-- First-match lookup in a thresholds association list, modelling
`thresholds.get(threshold_name, 0)`. -/
def lookupVal (l : List (String × Val)) (k : String) : Option Val :=
  (l.find? (fun p => p.1 = k)).map (fun p => p.2)

/-- `RevFloConfig.get_threshold`: the numeric value of the stored
threshold, `0` when the rule or the threshold key is missing.  (In every
validated configuration the stored value is a number.) -/
def Config.get_threshold (c : Config) (rule t : String) : ℚ :=
  match c.ruleConf rule with
  | some rc => ((lookupVal rc.thresholds t).getD (.vNum 0)).numVal
  | none => 0

/-- `RevFloConfig.get_severity`: the raw stored severity value,
`"medium"` when the rule is unknown. -/
def Config.get_severity (c : Config) (rule : String) : Val :=
  match c.ruleConf rule with
  | some rc => rc.severity
  | none => .vStr "medium"

/-- ASCII lowercasing, Python `str.lower()` as applied to file paths
(defined structurally over the character list so that it evaluates by
kernel reduction). -/
def strToLower (s : String) : String :=
  .mk (s.data.map Char.toLower)

/-- Does the character list `pat` occur contiguously in `l`?  (Python's
`pat in s` on strings.) -/
def charsContains (pat : List Char) : List Char → Bool
  | [] => pat.isEmpty
  | c :: rest => pat.isPrefixOf (c :: rest) || charsContains pat rest

/-- Python `pat in s` for strings. -/
def strContains (s pat : String) : Bool :=
  charsContains pat.toList s.toList

/-- The test-file filter of `RiskEngine.analyze` (`risk_engine.py` lines
26-29): a file is skipped when its lowercased path contains any of these
patterns. -/
def isTestPath (path : String) : Bool :=
  ["test", "spec", "__test__", "__tests__"].any (fun pat => strContains (strToLower path) pat)

/-- One entry of the `file_metrics` list fed to `RiskEngine.analyze`: a
dictionary with a `path` key and optional metric keys read via
`file.get(key, 0)` / `file.get("has_test", False)`. -/
structure FileRecord where
  path : String
  complexity : Int := 0
  loc : Int := 0
  indent_depth : Int := 0
  has_test : Bool := false
deriving DecidableEq, Repr

/-- A legacy finding (`app.models.scan.RiskItem`) as constructed by
`RiskEngine.analyze`.  The random `id=str(uuid.uuid4())` field is omitted:
it is freshly drawn randomness, read by nothing in the engine.  The
severity is the raw configured value (the pydantic model constrains it to
the four severity strings, which every validated configuration satisfies). -/
structure RiskItem where
  rule_type : String
  severity : Val
  file_path : String
  description : String
  explanation : String
  metricsInfo : List (String × Val)
deriving DecidableEq, Repr

/-- Rule 1 of `RiskEngine.analyze` (lines 39-56): Hotspot. -/
def hotspotFindings (c : Config) (f : FileRecord) (churn : Int) : List RiskItem :=
  if c.is_rule_enabled "hotspot" then
    let ct := c.get_threshold "hotspot" "complexity"
    let cht := c.get_threshold "hotspot" "churn"
    if (f.complexity : ℚ) > ct ∧ (churn : ℚ) > cht then
      [{ rule_type := "Hotspot"
         severity := c.get_severity "hotspot"
         file_path := f.path
         description := "High complexity (" ++ toString f.complexity ++
           ") combined with frequent changes (" ++ toString churn ++ " commits)"
         explanation := "This file has both high complexity AND high churn, making it a major stability risk. " ++
           "Thresholds: complexity > " ++ toString ct ++ ", churn > " ++ toString cht
         metricsInfo := [("complexity", .vNum f.complexity), ("churn", .vNum churn)] }]
    else []
  else []

/-- Rule 2 of `RiskEngine.analyze` (lines 58-74): Deep Nesting. -/
def deepNestingFindings (c : Config) (f : FileRecord) : List RiskItem :=
  if c.is_rule_enabled "deep_nesting" then
    let it := c.get_threshold "deep_nesting" "indent_depth"
    if (f.indent_depth : ℚ) > it then
      [{ rule_type := "Deep Nesting"
         severity := c.get_severity "deep_nesting"
         file_path := f.path
         description := "Indentation depth of " ++ toString f.indent_depth ++
           " makes code hard to read and test"
         explanation := "Deep nesting reduces code readability and increases cognitive load. " ++
           "Threshold: indent_depth > " ++ toString it
         metricsInfo := [("indent_depth", .vNum f.indent_depth)] }]
    else []
  else []

/-- Rule 3 of `RiskEngine.analyze` (lines 76-92): Large File. -/
def largeFileFindings (c : Config) (f : FileRecord) : List RiskItem :=
  if c.is_rule_enabled "large_file" then
    let lt := c.get_threshold "large_file" "loc"
    if (f.loc : ℚ) > lt then
      [{ rule_type := "Large File"
         severity := c.get_severity "large_file"
         file_path := f.path
         description := "File size of " ++ toString f.loc ++ " lines suggests too many responsibilities"
         explanation := "Large files often indicate violation of Single Responsibility Principle. " ++
           "Threshold: loc > " ++ toString lt
         metricsInfo := [("loc", .vNum f.loc)] }]
    else []
  else []

/-- Rule 4 of `RiskEngine.analyze` (lines 94-110): Complex Module. -/
def complexModuleFindings (c : Config) (f : FileRecord) : List RiskItem :=
  if c.is_rule_enabled "complex_module" then
    let ct := c.get_threshold "complex_module" "complexity"
    if (f.complexity : ℚ) > ct then
      [{ rule_type := "Complex Module"
         severity := c.get_severity "complex_module"
         file_path := f.path
         description := "Cyclomatic complexity of " ++ toString f.complexity ++ " is very high"
         explanation := "High complexity makes code harder to understand, test, and maintain. " ++
           "Threshold: complexity > " ++ toString ct
         metricsInfo := [("complexity", .vNum f.complexity)] }]
    else []
  else []

/-- Rule 5 of `RiskEngine.analyze` (lines 112-128): No Tests. -/
def noTestsFindings (c : Config) (f : FileRecord) : List RiskItem :=
  if c.is_rule_enabled "no_tests" then
    let mt := c.get_threshold "no_tests" "min_loc"
    if (f.loc : ℚ) > mt ∧ ¬ f.has_test then
      [{ rule_type := "No Tests"
         severity := c.get_severity "no_tests"
         file_path := f.path
         description := "File has " ++ toString f.loc ++ " lines but no test coverage detected"
         explanation := "Substantial files without tests are risky and harder to refactor safely. " ++
           "Threshold: loc > " ++ toString mt ++ " without tests"
         metricsInfo := [("loc", .vNum f.loc), ("has_test", .vBool false)] }]
    else []
  else []

/-- The per-file body of the `for file in production_files` loop of
`RiskEngine.analyze`: each of the five rules is checked by its own
independent `if` (there is no `elif`/first-match chaining between them),
and each match appends one finding. -/
def analyzeFile (c : Config) (churnOf : String → Int) (f : FileRecord) : List RiskItem :=
  hotspotFindings c f (churnOf f.path) ++ deepNestingFindings c f ++
    largeFileFindings c f ++ complexModuleFindings c f ++ noTestsFindings c f

/-- `RiskEngine.analyze` (`risk_engine.py` lines 16-130): filter out test
files, then run the five rules over every remaining file in order.  The
churn dictionary is modelled as a total function (Python
`churn_metrics.get(path, 0)`). -/
def analyze (c : Config) (file_metrics : List FileRecord) (churnOf : String → Int) :
    List RiskItem :=
  (file_metrics.filter (fun f => ! isTestPath f.path)).flatMap (analyzeFile c churnOf)

/-- The per-finding deduction of the legacy `calculate_score` in
`scanner.py` lines 43-52: Python compares the severity value against the
four strings, any other value deducts nothing. -/
def legacyDeduct (sev : Val) : Int :=
  if sev = .vStr "critical" then 15
  else if sev = .vStr "high" then 10
  else if sev = .vStr "medium" then 5
  else if sev = .vStr "low" then 2
  else 0

/-- The running-subtraction loop shared by both scoring generations. -/
def scoreLoop (deduct : α → Int) : List α → Int → Int
  | [], s => s
  | v :: rest, s => scoreLoop deduct rest (s - deduct v)

/-- Legacy `calculate_score` (`scanner.py` lines 24-53): start at 100,
subtract 15/10/5/2 per critical/high/medium/low finding, clamp at 0. -/
def calculate_score (findings : List RiskItem) : Int :=
  max 0 (scoreLoop legacyDeduct (findings.map RiskItem.severity) 100)

/-- A V3 finding severity.  `app.models.audit_v3.Finding` declares
`severity: Literal["critical", "high", "medium", "low"]`, so the field is
a closed four-valued type. -/
inductive Severity where
  | critical
  | high
  | medium
  | low
deriving DecidableEq, Repr

/-- A V3 finding (`app.models.audit_v3.Finding`).  The optional
`line_number`/`code_snippet` fields (never set by the six scanners) are
omitted; rule-specific `metrics` values are integers here. -/
structure Finding where
  id : String
  rule_id : String
  severity : Severity
  category : String
  file_path : String
  title : String
  description : String
  metricValues : List (String × Int)
deriving DecidableEq, Repr

/-- Per-file metrics as cached and consumed by every V3 dimension scanner
(`app.services.audit.dimension_scanner.FileMetrics`). -/
structure FileMetrics where
  file_path : String
  loc : Int
  complexity : Int
  indent_depth : Int
  churn_90d : Int
  has_test : Bool
  language : String
deriving DecidableEq, Repr

/-- The V3 per-finding deduction: critical 20, high 10, medium 5, low 2. -/
def dimDeduct (sev : Severity) : Int :=
  match sev with
  | .critical => 20
  | .high => 10
  | .medium => 5
  | .low => 2

/-- `calculate_score` of the V3 dimension scanners.  All six scanner
classes (`code_quality_scanner.py` lines 149-170,
`maintainability_scanner.py` lines 106-120, `architecture_scanner.py`
lines 102-116, `performance_scanner.py` lines 103-117,
`security_scanner.py` lines 85-99, `testing_confidence_scanner.py` lines
115-129) carry the identical body: start at 100, subtract the per-severity
deduction per finding in list order, clamp at 0 at the end. -/
def DimensionScanner.calculate_score (findings : List Finding) : Int :=
  max 0 (scoreLoop dimDeduct (findings.map Finding.severity) 100)

/-- `MaintainabilityScanner` thresholds (`maintainability_scanner.py`
lines 30-32). -/
def HOTSPOT_COMPLEXITY : Int := 15

/-- `MaintainabilityScanner.HOTSPOT_CHURN`. -/
def HOTSPOT_CHURN : Int := 10

/-- The finding-producing loop of `MaintainabilityScanner.scan`
(`maintainability_scanner.py` lines 59-79): one high `hotspot` finding
per cached file whose complexity and 90-day churn both strictly exceed
their thresholds.  The metric cache dictionary is modelled as an
association list in iteration order. -/
def MaintainabilityScanner.scanFindings (cache : List (String × FileMetrics)) : List Finding :=
  cache.flatMap (fun p =>
    let m := p.2
    if m.complexity > HOTSPOT_COMPLEXITY ∧ m.churn_90d > HOTSPOT_CHURN then
      [{ id := "MAINT001-" ++ p.1
         rule_id := "MAINT001"
         severity := .high
         category := "hotspot"
         file_path := p.1
         title := "Hotspot"
         description := "High complexity (" ++ toString m.complexity ++
           ") + frequent changes (" ++ toString m.churn_90d ++ " commits) = instability risk"
         metricValues := [("complexity", m.complexity), ("churn_90d", m.churn_90d),
           ("complexity_threshold", HOTSPOT_COMPLEXITY), ("churn_threshold", HOTSPOT_CHURN)] }]
    else [])

/-- A V3 dimension scan result (`app.models.audit_v3.DimensionScanResult`)
restricted to the fields the orchestrator aggregation reads; database ids,
wall-clock timing and the score-neutral AI annotation fields are omitted.
`score` is a natural: every scanner stores `calculate_score(findings)`,
which is clamped at 0. -/
structure DimensionScanResult where
  scan_type : String
  status : String
  score : Nat
  findings : List Finding
  files_analyzed : Nat
  files_from_cache : Nat
deriving DecidableEq, Repr

/-- `MaintainabilityScanner.scan` without the wall-clock timing fields:
analyzes every cached file and scores the resulting findings. -/
def MaintainabilityScanner.scan (cache : List (String × FileMetrics)) : DimensionScanResult :=
  { scan_type := "maintainability"
    status := "completed"
    score := (DimensionScanner.calculate_score (MaintainabilityScanner.scanFindings cache)).toNat
    findings := MaintainabilityScanner.scanFindings cache
    files_analyzed := cache.length
    files_from_cache := cache.length }

/-- A cached metric document (`app.models.audit_v3.FileMetricCache`).
Timestamps are seconds (`datetime` differences are compared through
`total_seconds()`); `ttl` is in seconds with default 30 days. -/
structure FileMetricCacheEntry where
  repo_id : Nat
  commit_sha : String
  file_path : String
  loc : Int
  complexity : Int
  indent_depth : Int
  churn_90d : Int
  has_test : Bool
  language : String
  computed_at : Int
  ttl : Int := 86400 * 30
deriving DecidableEq, Repr

/-- The `FileMetrics` value reconstructed from a cache entry by
`FileMetricCacheService.get_metrics` (`file_metric_cache.py` lines 48-56). -/
def FileMetricCacheEntry.toFileMetrics (e : FileMetricCacheEntry) : FileMetrics :=
  { file_path := e.file_path
    loc := e.loc
    complexity := e.complexity
    indent_depth := e.indent_depth
    churn_90d := e.churn_90d
    has_test := e.has_test
    language := e.language }

/-- The composite-key match used by `FileMetricCache.find_one`. -/
def entryMatches (repo : Nat) (sha path : String) (e : FileMetricCacheEntry) : Bool :=
  e.repo_id = repo ∧ e.commit_sha = sha ∧ e.file_path = path

/-- `FileMetricCacheService.get_metrics` (`file_metric_cache.py` lines
18-56) over an explicit store, scanned in document order: `find_one`
returns the first matching entry; a missing entry is a miss; an entry
whose age `now - computed_at` strictly exceeds its `ttl` is deleted from
the store and reported as a miss; otherwise the stored metrics are
returned and the store is unchanged.  The result pairs the returned
value with the post-read store. -/
def get_metrics (now : Int) (repo : Nat) (sha path : String) :
    List FileMetricCacheEntry → Option FileMetrics × List FileMetricCacheEntry
  | [] => (none, [])
  | e :: rest =>
    if entryMatches repo sha path e then
      if now - e.computed_at > e.ttl then (none, rest)
      else (some e.toFileMetrics, e :: rest)
    else
      let r := get_metrics now repo sha path rest
      (r.1, e :: r.2)

/-- The outcome of one external `git` invocation as observed by
`GitDiffAnalyzer.get_changed_files`: either the process layer raised
(timeout or other exception), or the process ran and produced a return
code and stdout lines. -/
inductive GitResult where
  | raised
  | ran (returncode : Int) (stdout : List String)
deriving DecidableEq, Repr

/-- `GitDiffAnalyzer.get_changed_files` (`git_diff_analyzer.py` lines
16-68): a raised exception or a non-zero return code yields the empty
set; otherwise the non-empty stdout lines, as a set (modelled by
`dedup`). -/
def get_changed_files (diff : GitResult) : List String :=
  match diff with
  | .raised => []
  | .ran rc stdout => if rc ≠ 0 then [] else (stdout.filter (fun l => l ≠ "")).dedup

/-- `GitDiffAnalyzer.should_full_scan` (`git_diff_analyzer.py` lines
70-119).  `lsFiles` is the outcome of the `git ls-files` call inside the
`try` block: if it raises, the `except` branch returns `true` (prefer a
full scan); when it runs, `total_files` is the stdout line count (the
return code is not inspected).  The diff call never raises (its failures
degrade to the empty set inside `get_changed_files`).  Python's
`len(changed) > total_files * 0.5` is the exact integer comparison
`2 * len(changed) > total_files`. -/
def should_full_scan (prev_commit_sha : String) (lsFiles : Except Unit (List String))
    (diff : GitResult) : Bool :=
  if prev_commit_sha = "" then true
  else
    match lsFiles with
    | .error _ => true
    | .ok stdout =>
        let total_files := stdout.length
        let changed := get_changed_files diff
        if 2 * changed.length > total_files then true
        else false

/-- The result-collection loop of `AuditOrchestratorV3.execute`
(`orchestrator_v3.py` lines 147-179): `asyncio.gather` with
`return_exceptions=True` hands back, per scanner, either an exception or
its scan result; exceptions are logged and skipped, results accumulate
`total_issues`, `score_sum` and `successful_scans`. -/
def aggLoop : List (Except Unit DimensionScanResult) → Nat → Nat → Nat → Nat × Nat × Nat
  | [], total_issues, score_sum, successful => (total_issues, score_sum, successful)
  | .error _ :: rest, total_issues, score_sum, successful =>
      aggLoop rest total_issues score_sum successful
  | .ok r :: rest, total_issues, score_sum, successful =>
      aggLoop rest (total_issues + r.findings.length) (score_sum + r.score) (successful + 1)

/-- The aggregation step of `AuditOrchestratorV3.execute` (lines 147-187):
collect over the gathered scanner outcomes, then `overall_score =
int(score_sum / successful_scans)` when any scan succeeded (integer
truncation of a non-negative exact quotient, i.e. floor division) and `0`
otherwise; `total_issues` is the accumulated finding count.  Returns
`(overall_score, total_issues)`. -/
def executeAggregate (results : List (Except Unit DimensionScanResult)) : Nat × Nat :=
  let acc := aggLoop results 0 0 0
  (if acc.2.2 > 0 then acc.2.1 / acc.2.2 else 0, acc.1)

/-- The directory-level skip of `AuditOrchestratorV3._compute_metrics`
(`orchestrator_v3.py` lines 230-233). -/
def v3SkipsDir (root : String) : Bool :=
  ["test", "tests", "__test__", "__tests__", "spec", "specs"].any
    (fun pat => strContains (strToLower root) pat)

/-- The code-file extension filter of `_compute_metrics` (line 237). -/
def v3CodeExt (name : String) : Bool :=
  [".py", ".js", ".ts", ".java", ".cpp", ".tsx", ".jsx"].any
    (fun e => e.toList.isSuffixOf name.toList)

/-- The file-level skip of `_compute_metrics` (lines 242-244): the
lowercased relative path is tested for these six substrings.  Note this
is strictly narrower than the legacy engine's bare `test`/`spec` filter. -/
def v3SkipsFile (relPath : String) : Bool :=
  ["test_", "_test.", "test.", "spec_", "_spec.", "spec."].any
    (fun pat => strContains (strToLower relPath) pat)

/-- The relative path of a walked file: `root` is the directory path
relative to the scan root (`""` for the root itself). -/
def relPathOf (root name : String) : String :=
  if root = "" then name else root ++ "/" ++ name

/-- Whether one `(directory, filename)` pair walked by
`AuditOrchestratorV3._compute_metrics` contributes a metric-cache entry,
and under which relative path: `.git` directories, test directories,
non-code extensions and test-patterned file paths are skipped. -/
def includeEntry (e : String × String) : Option String :=
  if strContains e.1 ".git" then none
  else if v3SkipsDir e.1 then none
  else if v3CodeExt e.2 = false then none
  else
    let rel := relPathOf e.1 e.2
    if v3SkipsFile rel then none
    else some rel

/-- The set of relative paths for which `_compute_metrics` computes and
caches metrics, over an abstract directory walk given as a list of
`(directory, filename)` pairs. -/
def compute_metrics_paths (entries : List (String × String)) : List String :=
  entries.filterMap includeEntry

/-- Spec-side (claim C4): the four allowed severity values. -/
def specSeverityAllowed (v : Val) : Prop :=
  v = .vStr "critical" ∨ v = .vStr "high" ∨ v = .vStr "medium" ∨ v = .vStr "low"

/-- Spec-side (claim C4): `enabled` must be a boolean. -/
def specBoolean (v : Val) : Prop :=
  v = .vBool true ∨ v = .vBool false

/-- Spec-side (claim C4): a threshold must be a non-negative number.
Python booleans are the integers `0`/`1`, hence non-negative numbers. -/
def specNonNegNumber : Val → Prop
  | .vNum q => 0 ≤ q
  | .vBool _ => True
  | .vStr _ => False

instance : DecidablePred specNonNegNumber := fun v =>
  match v with
  | .vNum q => inferInstanceAs (Decidable (0 ≤ q))
  | .vBool _ => inferInstanceAs (Decidable True)
  | .vStr _ => inferInstanceAs (Decidable False)

/-- Spec-side (claim C4): the allowed `severity_filter` values. -/
def specFilterAllowed (v : Val) : Prop :=
  v = .vStr "all" ∨ v = .vStr "critical_high" ∨ v = .vStr "critical"

/-- Spec-side (claim C4): a rule entry violating one of the claim's three
per-rule conditions. -/
def specRuleViolation (rc : RuleConf) : Prop :=
  ¬ specSeverityAllowed rc.severity ∨ ¬ specBoolean rc.enabled ∨
    ∃ t ∈ rc.thresholds, ¬ specNonNegNumber t.2

/-- Spec-side (claim C4): the merged document has some violation among
the conditions the claim enumerates. -/
def specDocumentViolation (c : Config) : Prop :=
  (∃ p ∈ c.rules.toList, specRuleViolation p.2) ∨
    ¬ specFilterAllowed c.settings.severity_filter

instance (rc : RuleConf) : Decidable (specRuleViolation rc) := by
  unfold specRuleViolation specSeverityAllowed specBoolean
  infer_instance

instance (c : Config) : Decidable (specDocumentViolation c) := by
  unfold specDocumentViolation specFilterAllowed
  infer_instance

/-- The file of claim C1's scenario: complexity 45, defaults elsewhere. -/
def c1File : FileRecord :=
  { path := "core/app.py", complexity := 45 }

/-- The churn map of claim C1's scenario: 15 commits for that file. -/
def c1Churn : String → Int :=
  fun p => if p = "core/app.py" then 15 else 0

/-- A user document overriding a known rule with an invalid severity. -/
def badSeverityDoc : UserConfig :=
  { rules := [("hotspot", { severity := some (.vStr "urgent") })] }

/-- A user document whose single override targets an unknown rule name,
carrying both an invalid severity and a negative threshold. -/
def unknownRuleDoc : UserConfig :=
  { rules := [("custom_rule",
      { severity := some (.vStr "urgent"), thresholds := some [("x", .vNum (-5))] })] }

/-- A concrete cached metric entry written at time 0 with ttl 100 s. -/
def c5Entry : FileMetricCacheEntry :=
  { repo_id := 1, commit_sha := "abc1234", file_path := "app/main.py", loc := 10,
    complexity := 2, indent_depth := 1, churn_90d := 3, has_test := false,
    language := "python", computed_at := 0, ttl := 100 }

/-- A concrete critical V3 finding, used to exercise the score clamp. -/
def exCriticalFinding : Finding :=
  { id := "SEC001-app/main.py", rule_id := "SEC001", severity := .critical,
    category := "hardcoded_secret", file_path := "app/main.py",
    title := "Hardcoded Secret", description := "A credential literal was found",
    metricValues := [] }

/-- Two concrete file records used to exercise input-order independence. -/
def exFileA : FileRecord :=
  { path := "app/alpha.py", complexity := 45, loc := 350, indent_depth := 7 }

/-- Second concrete file record for the permutation scenario. -/
def exFileB : FileRecord :=
  { path := "app/beta.py", complexity := 5, loc := 120 }

/-- The running-subtraction loop computes the start value minus the sum
of all deductions. -/
theorem scoreLoop_eq (d : α → Int) (l : List α) (s : Int) :
    scoreLoop d l s = s - (l.map d).sum := by
  induction l generalizing s with
  | nil => simp [scoreLoop]
  | cons v rest ih =>
    simp only [scoreLoop, ih, List.map_cons, List.sum_cons]
    ring

/-- The code's severity check agrees with the claim's list of allowed
severities. -/
theorem severityOk_iff (v : Val) : v.severityOk = true ↔ specSeverityAllowed v := by
  cases v with
  | vStr s =>
    simp [Val.severityOk, specSeverityAllowed, VALID_SEVERITIES, List.elem_iff]
  | vBool b => simp [Val.severityOk, specSeverityAllowed]
  | vNum q => simp [Val.severityOk, specSeverityAllowed]

/-- Python's `isinstance(v, bool)` agrees with the claim's booleans. -/
theorem isBool_iff (v : Val) : v.isBool = true ↔ specBoolean v := by
  cases v with
  | vBool b => cases b <;> simp [Val.isBool, specBoolean]
  | vNum q => simp [Val.isBool, specBoolean]
  | vStr s => simp [Val.isBool, specBoolean]

/-- The code's filter check agrees with the claim's allowed filters. -/
theorem filterOk_iff (v : Val) : v.filterOk = true ↔ specFilterAllowed v := by
  cases v with
  | vStr s => simp [Val.filterOk, specFilterAllowed, VALID_FILTERS, List.elem_iff]
  | vBool b => simp [Val.filterOk, specFilterAllowed]
  | vNum q => simp [Val.filterOk, specFilterAllowed]

/-- The threshold validation loop succeeds exactly when every threshold
of the rule is a non-negative number. -/
theorem validateThresholds_ok_iff (rule : String) (l : List (String × Val)) :
    validateThresholds rule l = .ok () ↔ ∀ t ∈ l, specNonNegNumber t.2 := by
  induction l with
  | nil => simp [validateThresholds]
  | cons t rest ih =>
    obtain ⟨tn, tv⟩ := t
    by_cases h1 : tv.isNumber = false
    · have hv : ¬ specNonNegNumber tv := by
        cases tv <;> simp_all [Val.isNumber, specNonNegNumber]
      simp [validateThresholds, h1, hv]
    · by_cases h2 : tv.numVal < 0
      · have hv : ¬ specNonNegNumber tv := by
          cases tv with
          | vNum q => simp_all [Val.numVal, specNonNegNumber]
          | vBool b => exfalso; revert h2; cases b <;> simp [Val.numVal]
          | vStr s => simp [specNonNegNumber]
        simp [validateThresholds, h1, h2, hv]
      · have hv : specNonNegNumber tv := by
          cases tv with
          | vNum q => simp_all [Val.numVal, specNonNegNumber]
          | vBool b => simp [specNonNegNumber]
          | vStr s => simp_all [Val.isNumber]
        simp [validateThresholds, h1, h2, ih, hv]

/-- The rule validation loop succeeds exactly when no listed rule has a
violation among the claim's three per-rule conditions. -/
theorem validateRules_ok_iff (l : List (String × RuleConf)) :
    validateRules l = .ok () ↔ ∀ p ∈ l, ¬ specRuleViolation p.2 := by
  induction l with
  | nil => simp [validateRules]
  | cons p rest ih =>
    obtain ⟨name, rc⟩ := p
    by_cases h1 : rc.severity.severityOk = false
    · have hv : specRuleViolation rc := by
        refine Or.inl (fun hs => ?_)
        rw [← severityOk_iff] at hs
        simp [h1] at hs
      simp [validateRules, h1, hv]
    · have hs : specSeverityAllowed rc.severity := by
        rw [← severityOk_iff]
        revert h1
        cases rc.severity.severityOk <;> simp
      by_cases h2 : rc.enabled.isBool = false
      · have hv : specRuleViolation rc := by
          refine Or.inr (Or.inl (fun hb => ?_))
          rw [← isBool_iff] at hb
          simp [h2] at hb
        simp [validateRules, h1, h2, hv]
      · have hb : specBoolean rc.enabled := by
          rw [← isBool_iff]
          revert h2
          cases rc.enabled.isBool <;> simp
        cases h3 : validateThresholds name rc.thresholds with
        | error e =>
          have hv : specRuleViolation rc := by
            refine Or.inr (Or.inr ?_)
            by_contra hno
            push_neg at hno
            have := (validateThresholds_ok_iff name rc.thresholds).2 hno
            simp [this] at h3
          simp [validateRules, h1, h2, h3, hv]
        | ok u =>
          cases u
          have hth := (validateThresholds_ok_iff name rc.thresholds).1 h3
          have hok : ¬ specRuleViolation rc := by
            simp only [specRuleViolation, not_or]
            exact ⟨fun h => h hs, fun h => (not_not.2 hb) h, by
              push_neg
              exact hth⟩
          simp [validateRules, h1, h2, h3, ih, hok]

/-- A document violation among the claim's enumerated conditions makes
`_validate` raise. -/
theorem validateConfig_error_of_violation (c : Config) (h : specDocumentViolation c) :
    ∃ e, validateConfig c = .error e := by
  unfold validateConfig
  cases h3 : validateRules c.rules.toList with
  | error e => exact ⟨e, rfl⟩
  | ok u =>
    cases u
    have hall := (validateRules_ok_iff _).1 h3
    rcases h with hrule | hfilter
    · obtain ⟨p, hp, hv⟩ := hrule
      exact absurd hv (hall p hp)
    · have hfo : c.settings.severity_filter.filterOk = false := by
        cases hf : c.settings.severity_filter.filterOk
        · rfl
        · exact absurd ((filterOk_iff _).1 hf) hfilter
      by_cases he : c.settings.enabled.isBool = false
      · exact ⟨"settings.pr_comments.enabled must be true or false", by simp [he]⟩
      · have he2 : c.settings.enabled.isBool = true := by
          revert he
          cases c.settings.enabled.isBool <;> simp
        exact ⟨"Invalid severity_filter", by simp [he2, hfo]⟩

/-- An override entry whose rule name is not a built-in rule name leaves
the rules untouched. -/
theorem applyRuleOverride_unknown (r : Rules) (name : String) (o : RuleOverride)
    (h : knownRuleNames.contains name = false) : applyRuleOverride r name o = r := by
  have hne : name ≠ "hotspot" ∧ name ≠ "deep_nesting" ∧ name ≠ "large_file" ∧
      name ≠ "complex_module" ∧ name ≠ "no_tests" := by
    simpa [knownRuleNames, List.elem_iff, not_or] using h
  obtain ⟨h1, h2, h3, h4, h5⟩ := hne
  simp [applyRuleOverride, h1, h2, h3, h4, h5]

/-- Removing the unknown-named entries from the user document does not
change the merged rules fold. -/
theorem foldl_filter_known (l : List (String × RuleOverride)) (acc : Rules) :
    (l.filter (fun p => knownRuleNames.contains p.1)).foldl
      (fun a p => applyRuleOverride a p.1 p.2) acc =
      l.foldl (fun a p => applyRuleOverride a p.1 p.2) acc := by
  induction l generalizing acc with
  | nil => rfl
  | cons p rest ih =>
    by_cases h : knownRuleNames.contains p.1
    · simp only [List.filter_cons, h, if_true, List.foldl_cons]
      exact ih _
    · have hb : knownRuleNames.contains p.1 = false := by
        revert h
        cases knownRuleNames.contains p.1 <;> simp
      simp only [List.filter_cons, hb, Bool.false_eq_true, if_false, List.foldl_cons,
        applyRuleOverride_unknown _ _ _ hb]
      exact ih _

/-- Every Hotspot finding carries rule type `"Hotspot"` and the file's
path. -/
theorem mem_hotspotFindings (c : Config) (f : FileRecord) (ch : Int) (r : RiskItem)
    (h : r ∈ hotspotFindings c f ch) : r.rule_type = "Hotspot" ∧ r.file_path = f.path := by
  simp only [hotspotFindings] at h
  split_ifs at h with h1 h2
  · simp only [List.mem_singleton] at h
    subst h
    exact ⟨rfl, rfl⟩
  all_goals simp at h

/-- Every Deep Nesting finding carries rule type `"Deep Nesting"` and the
file's path. -/
theorem mem_deepNestingFindings (c : Config) (f : FileRecord) (r : RiskItem)
    (h : r ∈ deepNestingFindings c f) : r.rule_type = "Deep Nesting" ∧ r.file_path = f.path := by
  simp only [deepNestingFindings] at h
  split_ifs at h with h1 h2
  · simp only [List.mem_singleton] at h
    subst h
    exact ⟨rfl, rfl⟩
  all_goals simp at h

/-- Every Large File finding carries rule type `"Large File"` and the
file's path. -/
theorem mem_largeFileFindings (c : Config) (f : FileRecord) (r : RiskItem)
    (h : r ∈ largeFileFindings c f) : r.rule_type = "Large File" ∧ r.file_path = f.path := by
  simp only [largeFileFindings] at h
  split_ifs at h with h1 h2
  · simp only [List.mem_singleton] at h
    subst h
    exact ⟨rfl, rfl⟩
  all_goals simp at h

/-- Every Complex Module finding carries rule type `"Complex Module"` and
the file's path. -/
theorem mem_complexModuleFindings (c : Config) (f : FileRecord) (r : RiskItem)
    (h : r ∈ complexModuleFindings c f) : r.rule_type = "Complex Module" ∧ r.file_path = f.path := by
  simp only [complexModuleFindings] at h
  split_ifs at h with h1 h2
  · simp only [List.mem_singleton] at h
    subst h
    exact ⟨rfl, rfl⟩
  all_goals simp at h

/-- Every No Tests finding carries rule type `"No Tests"` and the file's
path. -/
theorem mem_noTestsFindings (c : Config) (f : FileRecord) (r : RiskItem)
    (h : r ∈ noTestsFindings c f) : r.rule_type = "No Tests" ∧ r.file_path = f.path := by
  simp only [noTestsFindings] at h
  split_ifs at h with h1 h2
  · simp only [List.mem_singleton] at h
    subst h
    exact ⟨rfl, rfl⟩
  all_goals simp at h

/-- Every finding produced for a file carries that file's path, and one
of the five rule types. -/
theorem analyzeFile_mem (c : Config) (churnOf : String → Int) (f : FileRecord) (r : RiskItem)
    (h : r ∈ analyzeFile c churnOf f) :
    r.file_path = f.path ∧
      (r.rule_type = "Hotspot" ∨ r.rule_type = "Deep Nesting" ∨ r.rule_type = "Large File" ∨
        r.rule_type = "Complex Module" ∨ r.rule_type = "No Tests") := by
  unfold analyzeFile at h
  simp only [List.mem_append] at h
  rcases h with (((h | h) | h) | h) | h
  · exact ⟨(mem_hotspotFindings c f _ r h).2, Or.inl (mem_hotspotFindings c f _ r h).1⟩
  · exact ⟨(mem_deepNestingFindings c f r h).2, Or.inr (Or.inl (mem_deepNestingFindings c f r h).1)⟩
  · exact ⟨(mem_largeFileFindings c f r h).2, Or.inr (Or.inr (Or.inl (mem_largeFileFindings c f r h).1))⟩
  · exact ⟨(mem_complexModuleFindings c f r h).2,
      Or.inr (Or.inr (Or.inr (Or.inl (mem_complexModuleFindings c f r h).1)))⟩
  · exact ⟨(mem_noTestsFindings c f r h).2,
      Or.inr (Or.inr (Or.inr (Or.inr (mem_noTestsFindings c f r h).1)))⟩

/-- With the default configuration, a file whose churn is exactly the
hotspot churn threshold (10) produces no Hotspot finding. -/
theorem hotspotFindings_default_churn10 (f : FileRecord) :
    hotspotFindings DEFAULT_CONFIG f 10 = [] := by
  have ht : DEFAULT_CONFIG.get_threshold "hotspot" "churn" = 10 := rfl
  simp only [hotspotFindings, ht]
  split_ifs with h1 h2
  · exact absurd h2.2 (by norm_num)
  · rfl
  · rfl

/-- The accumulator loop of the orchestrator aggregation in closed form:
it adds the finding counts, scores and multiplicity of the successful
outcomes to its accumulators. -/
theorem aggLoop_spec (results : List (Except Unit DimensionScanResult)) (ti ss n : Nat) :
    aggLoop results ti ss n =
      (ti + ((results.filterMap Except.toOption).map (fun r => r.findings.length)).sum,
       ss + ((results.filterMap Except.toOption).map (fun r => r.score)).sum,
       n + (results.filterMap Except.toOption).length) := by
  induction results generalizing ti ss n with
  | nil => simp [aggLoop]
  | cons x rest ih =>
    cases x with
    | error e => simp [aggLoop, ih, Except.toOption]
    | ok r =>
      simp only [aggLoop, ih, List.filterMap_cons, Except.toOption, List.map_cons,
        List.sum_cons, List.length_cons]
      refine Prod.ext ?_ (Prod.ext ?_ ?_) <;> simp <;> omega

/-- C2: every dimension scanner's `calculate_score` (the six scanner
classes share one body) returns `max 0 (100 − Σ deduction(severity))`
with deduction critical=20, high=10, medium=5, low=2; the result is
invariant under any permutation of the findings list; and a deduction
total exceeding 100 clamps the score to 0, never negative. -/
theorem dimension_score_closed_form (findings findings2 : List Finding)
    (hperm : findings.Perm findings2) :
    DimensionScanner.calculate_score findings =
      max 0 (100 - (findings.map (fun fd => dimDeduct fd.severity)).sum) ∧
    DimensionScanner.calculate_score findings = DimensionScanner.calculate_score findings2 ∧
    (100 < (findings.map (fun fd => dimDeduct fd.severity)).sum →
      DimensionScanner.calculate_score findings = 0) := by
  have hform : ∀ l : List Finding, DimensionScanner.calculate_score l =
      max 0 (100 - (l.map (fun fd => dimDeduct fd.severity)).sum) := by
    intro l
    unfold DimensionScanner.calculate_score
    rw [scoreLoop_eq, List.map_map]
    rfl
  refine ⟨hform findings, ?_, ?_⟩
  · rw [hform findings, hform findings2,
      (hperm.map (fun fd => dimDeduct fd.severity)).sum_eq]
  · intro h
    rw [hform findings, max_eq_left (by omega)]

/-- Witness for C2: six critical findings deduct 120 > 100 and the score
clamps to 0. -/
theorem dimension_score_closed_form_witness :
    DimensionScanner.calculate_score (List.replicate 6 exCriticalFinding) = 0 :=
  (dimension_score_closed_form (List.replicate 6 exCriticalFinding)
      (List.replicate 6 exCriticalFinding) (List.Perm.refl _)).2.2 (by decide)

/-- C3: the legacy scan-and-score pipeline (`RiskEngine.analyze` followed
by `calculate_score`) is a pure function of (metrics, churn, config) — in
this embedding it is a Lean function, hence identical across runs (the
random UUID `id` field of each finding is the one field outside the
deterministic core and is omitted from the model) — and is independent of
the ordering of the input file list: a permutation of the input permutes
the findings and leaves the score unchanged. -/
theorem legacy_pipeline_order_independent (c : Config) (files files2 : List FileRecord)
    (churnOf : String → Int) (hperm : files.Perm files2) :
    (analyze c files churnOf).Perm (analyze c files2 churnOf) ∧
    calculate_score (analyze c files churnOf) = calculate_score (analyze c files2 churnOf) := by
  have hp : (analyze c files churnOf).Perm (analyze c files2 churnOf) :=
    (hperm.filter _).flatMap_right _
  refine ⟨hp, ?_⟩
  unfold calculate_score
  rw [scoreLoop_eq, scoreLoop_eq, ((hp.map RiskItem.severity).map legacyDeduct).sum_eq]

/-- Witness for C3: swapping two concrete files leaves the legacy score
unchanged. -/
theorem legacy_pipeline_order_independent_witness :
    calculate_score (analyze DEFAULT_CONFIG [exFileA, exFileB] (fun _ => 15)) =
      calculate_score (analyze DEFAULT_CONFIG [exFileB, exFileA] (fun _ => 15)) :=
  (legacy_pipeline_order_independent DEFAULT_CONFIG [exFileA, exFileB] [exFileB, exFileA]
      (fun _ => 15) (List.Perm.swap exFileB exFileA [])).2

/-- C5: for a cache entry written at `computed_at = T` with `ttl = D`, a
`get_metrics` read at any time strictly later than `T + D` is a miss that
deletes the stale entry, and a read at any time up to `T + D` returns the
stored metrics unchanged, leaving the store untouched; expiry is
evaluated against the entry's own `computed_at`. -/
theorem cache_ttl_semantics (e : FileMetricCacheEntry) (rest : List FileMetricCacheEntry)
    (now : Int) :
    (now > e.computed_at + e.ttl →
      get_metrics now e.repo_id e.commit_sha e.file_path (e :: rest) = (none, rest)) ∧
    (now ≤ e.computed_at + e.ttl →
      get_metrics now e.repo_id e.commit_sha e.file_path (e :: rest) =
        (some e.toFileMetrics, e :: rest)) := by
  have hm : entryMatches e.repo_id e.commit_sha e.file_path e = true := by
    simp [entryMatches]
  constructor
  · intro h
    simp [get_metrics, hm, show now - e.computed_at > e.ttl by omega]
  · intro h
    simp [get_metrics, hm, show ¬ now - e.computed_at > e.ttl by omega]

/-- Witness for C5: the concrete entry written at `T = 0` with `D = 100`
is a deleted miss at `T + D + 1 = 101` and an unchanged hit at `T + D`. -/
theorem cache_ttl_semantics_witness :
    get_metrics 101 1 "abc1234" "app/main.py" [c5Entry] = (none, []) ∧
    get_metrics 100 1 "abc1234" "app/main.py" [c5Entry] =
      (some c5Entry.toFileMetrics, [c5Entry]) :=
  ⟨(cache_ttl_semantics c5Entry [] 101).1 (by decide),
   (cache_ttl_semantics c5Entry [] 100).2 (by decide)⟩

/-- C6: `should_full_scan` returns `true` in every uncertain or
large-change case — when the previous commit SHA is empty, when the
`git ls-files` call inside the decision raises (the `except` branch), and
when the changed-file count exceeds 50% of the tracked files.  (The diff
call itself cannot raise out of `get_changed_files`: its failures degrade
to the empty set there.) -/
theorem full_scan_on_uncertainty (prev : String) (ls : Except Unit (List String))
    (diff : GitResult)
    (h : prev = "" ∨ ls = .error () ∨
      ∃ tracked, ls = .ok tracked ∧ 2 * (get_changed_files diff).length > tracked.length) :
    should_full_scan prev ls diff = true := by
  unfold should_full_scan
  rcases h with h | h | ⟨tracked, hok, hgt⟩
  · simp [h]
  · by_cases hp : prev = ""
    · simp [hp]
    · simp [hp, h]
  · by_cases hp : prev = ""
    · simp [hp]
    · simp [hp, hok, hgt]

/-- Witness for C6: an empty previous SHA forces a full scan. -/
theorem full_scan_on_uncertainty_witness :
    should_full_scan "" (.ok ["a.py", "b.py"]) (.ran 0 []) = true :=
  full_scan_on_uncertainty "" (.ok ["a.py", "b.py"]) (.ran 0 []) (Or.inl rfl)

/-- C7: in the orchestrator aggregation, a scanner outcome that is an
exception is omitted without affecting the rest; the overall score is the
integer mean of the successfully completed scores (0 if none succeeded)
and `total_issues` is the sum of their finding counts. -/
theorem orchestrator_aggregation (results xs ys : List (Except Unit DimensionScanResult)) :
    (executeAggregate results).1 =
      (if (results.filterMap Except.toOption).length > 0 then
        ((results.filterMap Except.toOption).map (fun r => r.score)).sum /
          (results.filterMap Except.toOption).length
      else 0) ∧
    (executeAggregate results).2 =
      ((results.filterMap Except.toOption).map (fun r => r.findings.length)).sum ∧
    executeAggregate (xs ++ .error () :: ys) = executeAggregate (xs ++ ys) := by
  refine ⟨?_, ?_, ?_⟩
  · simp [executeAggregate, aggLoop_spec]
  · simp [executeAggregate, aggLoop_spec]
  · simp [executeAggregate, aggLoop_spec, Except.toOption]

/-- C4: configuration load is fail-closed — whenever the merged document
violates one of the claim's conditions (rule severity outside the four
allowed values, rule `enabled` not a boolean, a threshold that is not a
non-negative number, or a `severity_filter` outside the three allowed
values), construction raises; and a successful construction returns
exactly the fully merged, fully validated document, never a partial one.
(Per Python semantics, booleans are integers, so a boolean threshold
counts as a non-negative number.) -/
theorem config_load_fail_closed (u : UserConfig) :
    (specDocumentViolation (mergeWithDefaults u) → ∃ e, RevFloConfig.init u = .error e) ∧
    (∀ c, RevFloConfig.init u = .ok c →
      c = mergeWithDefaults u ∧ validateConfig c = .ok ()) := by
  constructor
  · intro h
    obtain ⟨e, he⟩ := validateConfig_error_of_violation _ h
    exact ⟨e, by simp [RevFloConfig.init, he]⟩
  · intro c hc
    simp only [RevFloConfig.init] at hc
    cases h3 : validateConfig (mergeWithDefaults u) with
    | error e =>
      rw [h3] at hc
      simp at hc
    | ok u2 =>
      cases u2
      rw [h3] at hc
      simp only [Except.ok.injEq] at hc
      exact ⟨hc.symm, hc ▸ h3⟩

/-- Witness for C4: a document overriding the known `hotspot` rule with
`severity: "urgent"` fails construction. -/
theorem config_load_fail_closed_witness :
    ∃ e, RevFloConfig.init badSeverityDoc = .error e :=
  (config_load_fail_closed badSeverityDoc).1 (by decide)

/-- C9: configuration merging keeps exactly the built-in rule names — the
merged result only depends on the override entries whose rule name is one
of the five defaults, and a document whose sole override sits under an
unknown name (even with an invalid severity and a negative threshold)
loads successfully as the untouched default configuration. -/
theorem unknown_rule_overrides_discarded :
    (∀ u : UserConfig,
      mergeWithDefaults
          { rules := u.rules.filter (fun p => knownRuleNames.contains p.1),
            pr_comments := u.pr_comments } =
        mergeWithDefaults u) ∧
    RevFloConfig.init unknownRuleDoc = .ok DEFAULT_CONFIG := by
  constructor
  · intro u
    unfold mergeWithDefaults
    rw [foldl_filter_known]
  · rfl

/-- C1 counterexample: with the default configuration, the claim's own
scenario file (complexity 45, churn 15) receives two findings from the
rule chain — a Hotspot and a Complex Module — so `RiskEngine.analyze`
does not implement first-match-wins semantics. -/
theorem legacy_first_match_counterexample :
    (analyze DEFAULT_CONFIG [c1File] c1Churn).map RiskItem.rule_type =
      ["Hotspot", "Complex Module"] := by
  decide

/-- C1 amended: with the default configuration the legacy engine checks
each enabled rule independently per non-test file — each rule fires
exactly when its own thresholds are strictly exceeded, so multiple chain
findings coexist (in particular complexity 45 with churn 15 yields both a
critical Hotspot and a high Complex Module). -/
theorem legacy_rules_fire_independently (f : FileRecord) (ch : Int)
    (hf : isTestPath f.path = false) :
    (analyze DEFAULT_CONFIG [f] (fun _ => ch)).map (fun r => (r.rule_type, r.severity)) =
      (if (f.complexity : ℚ) > 25 ∧ (ch : ℚ) > 10 then [("Hotspot", Val.vStr "critical")] else []) ++
      (if (f.indent_depth : ℚ) > 6 then [("Deep Nesting", Val.vStr "high")] else []) ++
      (if (f.loc : ℚ) > 300 then [("Large File", Val.vStr "medium")] else []) ++
      (if (f.complexity : ℚ) > 35 then [("Complex Module", Val.vStr "high")] else []) ++
      (if (f.loc : ℚ) > 100 ∧ ¬ f.has_test then [("No Tests", Val.vStr "medium")] else []) := by
  have e1 : DEFAULT_CONFIG.is_rule_enabled "hotspot" = true := rfl
  have e2 : DEFAULT_CONFIG.is_rule_enabled "deep_nesting" = true := rfl
  have e3 : DEFAULT_CONFIG.is_rule_enabled "large_file" = true := rfl
  have e4 : DEFAULT_CONFIG.is_rule_enabled "complex_module" = true := rfl
  have e5 : DEFAULT_CONFIG.is_rule_enabled "no_tests" = true := rfl
  have t1 : DEFAULT_CONFIG.get_threshold "hotspot" "complexity" = 25 := rfl
  have t2 : DEFAULT_CONFIG.get_threshold "hotspot" "churn" = 10 := rfl
  have t3 : DEFAULT_CONFIG.get_threshold "deep_nesting" "indent_depth" = 6 := rfl
  have t4 : DEFAULT_CONFIG.get_threshold "large_file" "loc" = 300 := rfl
  have t5 : DEFAULT_CONFIG.get_threshold "complex_module" "complexity" = 35 := rfl
  have t6 : DEFAULT_CONFIG.get_threshold "no_tests" "min_loc" = 100 := rfl
  have s1 : DEFAULT_CONFIG.get_severity "hotspot" = .vStr "critical" := rfl
  have s2 : DEFAULT_CONFIG.get_severity "deep_nesting" = .vStr "high" := rfl
  have s3 : DEFAULT_CONFIG.get_severity "large_file" = .vStr "medium" := rfl
  have s4 : DEFAULT_CONFIG.get_severity "complex_module" = .vStr "high" := rfl
  have s5 : DEFAULT_CONFIG.get_severity "no_tests" = .vStr "medium" := rfl
  simp only [analyze, List.filter_cons, List.filter_nil, hf, Bool.not_false, if_true,
    List.flatMap_cons, List.flatMap_nil, List.append_nil, analyzeFile,
    hotspotFindings, deepNestingFindings, largeFileFindings, complexModuleFindings,
    noTestsFindings, e1, e2, e3, e4, e5, t1, t2, t3, t4, t5, t6, s1, s2, s3, s4, s5,
    List.map_append]
  split_ifs <;> simp

/-- Witness for C1 (amended): the scenario file yields exactly the
critical Hotspot and the high Complex Module findings. -/
theorem legacy_rules_fire_independently_witness :
    (analyze DEFAULT_CONFIG [c1File] (fun _ => 15)).map (fun r => (r.rule_type, r.severity)) =
      [("Hotspot", Val.vStr "critical"), ("Complex Module", Val.vStr "high")] := by
  rw [legacy_rules_fire_independently c1File 15 (by decide)]
  norm_num [c1File]

/-- A non-test path contains neither `test` nor `spec` (lowercased). -/
theorem isTestPath_contains (path : String) (h : isTestPath path = false) :
    strContains (strToLower path) "test" = false ∧ strContains (strToLower path) "spec" = false := by
  unfold isTestPath at h
  simp only [List.any_cons, List.any_nil, Bool.or_eq_false_iff] at h
  exact ⟨h.1, h.2.1⟩

/-- C8: a metric value exactly equal to a strict `>` threshold does not
trigger the rule — with the default legacy thresholds (25, 10) a file
whose churn is exactly 10 gets no Hotspot finding whatever its other
metrics, and in the maintainability scanner (thresholds 15/10) a file
with `churn_90d = 10` yields no finding whatever its complexity. -/
theorem strict_threshold_boundary (f : FileRecord) (fp lang : String)
    (loc cx ind : Int) (ht : Bool) :
    (analyze DEFAULT_CONFIG [f] (fun _ => 10)).filter
        (fun r => r.rule_type = "Hotspot") = [] ∧
    MaintainabilityScanner.scanFindings
      [(fp, { file_path := fp, loc := loc, complexity := cx, indent_depth := ind,
              churn_90d := 10, has_test := ht, language := lang })] = [] := by
  constructor
  · rw [List.filter_eq_nil_iff]
    intro r hr
    simp only [analyze, List.mem_flatMap, List.mem_filter] at hr
    obtain ⟨f2, hf2, hrf⟩ := hr
    unfold analyzeFile at hrf
    rw [hotspotFindings_default_churn10 f2] at hrf
    simp only [List.nil_append, List.mem_append] at hrf
    rcases hrf with ((h | h) | h) | h
    · simp [(mem_deepNestingFindings _ _ _ h).1]
    · simp [(mem_largeFileFindings _ _ _ h).1]
    · simp [(mem_complexModuleFindings _ _ _ h).1]
    · simp [(mem_noTestsFindings _ _ _ h).1]
  · simp [MaintainabilityScanner.scanFindings, HOTSPOT_CHURN]

/-- C10 counterexample: the file `testfoo.py` (whose lowercase path
contains `test`) matches none of the V3 pre-pass skip patterns and does
enter the metric cache. -/
theorem v3_test_file_enters_cache_counterexample :
    compute_metrics_paths [("", "testfoo.py")] = ["testfoo.py"] ∧
    strContains (strToLower "testfoo.py") "test" = true := by
  decide

/-- C10 amended: the legacy engine emits no finding for any file whose
lowercase path contains `test` or `spec`; the V3 metric pre-pass skips
directories matching its directory patterns and never caches a path
matching its narrower file patterns (`test_`, `_test.`, `test.`,
`spec_`, `_spec.`, `spec.`) — but a file such as `testfoo.py` matches
none of them and is cached. -/
theorem test_file_exemption_amended :
    (∀ (c : Config) (files : List FileRecord) (churnOf : String → Int),
      (analyze c files churnOf).filter
        (fun r => strContains (strToLower r.file_path) "test" ||
          strContains (strToLower r.file_path) "spec") = []) ∧
    (∀ entries : List (String × String),
      (compute_metrics_paths entries).filter (fun p => v3SkipsFile p) = []) ∧
    (∀ (root name : String) (rest : List (String × String)),
      v3SkipsDir root = true →
      compute_metrics_paths ((root, name) :: rest) = compute_metrics_paths rest) := by
  refine ⟨?_, ?_, ?_⟩
  · intro c files churnOf
    rw [List.filter_eq_nil_iff]
    intro r hr
    simp only [analyze, List.mem_flatMap, List.mem_filter] at hr
    obtain ⟨f2, hf2, hrf⟩ := hr
    have hpath := (analyzeFile_mem _ _ _ _ hrf).1
    have htest : isTestPath f2.path = false := by
      have := hf2.2
      revert this
      cases isTestPath f2.path <;> simp
    have hc := isTestPath_contains f2.path htest
    simp [hpath, hc.1, hc.2]
  · intro entries
    rw [List.filter_eq_nil_iff]
    intro p hp
    simp only [compute_metrics_paths, List.mem_filterMap] at hp
    obtain ⟨e, he, hinc⟩ := hp
    simp only [includeEntry] at hinc
    split_ifs at hinc with h1 h2 h3 h4
    have hp2 : p = relPathOf e.1 e.2 := (Option.some.inj hinc).symm
    subst hp2
    simpa using h4
  · intro root name rest hskip
    have hnone : includeEntry (root, name) = none := by
      simp [includeEntry, hskip]
    simp [compute_metrics_paths, List.filterMap_cons, hnone]

/-- Witness for C10 (amended): a file in a `tests` directory contributes
nothing to the metric pre-pass. -/
theorem test_file_exemption_amended_witness :
    compute_metrics_paths [("tests", "helper.py"), ("src", "app.py")] =
      compute_metrics_paths [("src", "app.py")] :=
  test_file_exemption_amended.2.2 "tests" "helper.py" [("src", "app.py")] (by decide)

end Revflo
